import Mathlib

/-!
Verification of the viot device-data query DTO validation logic and the
role-permission seed migration, as shallow Lean embeddings of
`app/module/device_data/dto/device_data_dto.py` and
`app/database/migrations/versions/2024-10-01_14-20_24d5a0f27b28_add_role_permission_data.py`.
-/

set_option maxRecDepth 4096

/-- Decidable equality for `Except`, used to evaluate validation outcomes. -/
instance {ε α : Type} [DecidableEq ε] [DecidableEq α] : DecidableEq (Except ε α) := fun a b =>
  match a, b with
  | .ok x, .ok y =>
      if h : x = y then .isTrue (by rw [h]) else .isFalse (fun hh => h (Except.ok.inj hh))
  | .error x, .error y =>
      if h : x = y then .isTrue (by rw [h]) else .isFalse (fun hh => h (Except.error.inj hh))
  | .ok _, .error _ => .isFalse (fun hh => Except.noConfusion hh)
  | .error _, .ok _ => .isFalse (fun hh => Except.noConfusion hh)

/-- The wall-clock (naive) part of a Python `datetime`: the displayed calendar
and clock fields, with microsecond resolution. -/
structure WallClock where
  year : Nat
  month : Nat
  day : Nat
  hour : Nat
  minute : Nat
  second : Nat
  microsecond : Nat
deriving DecidableEq

/-- A Python `datetime` value: wall-clock fields plus an optional timezone
offset in minutes (`tzinfo`); `none` models a naive datetime. -/
structure PyDateTime where
  wall : WallClock
  tzOffsetMinutes : Option Int
deriving DecidableEq

/-- Mixed-radix linearization of wall-clock fields; for in-range field values
this is strictly monotone in chronological order, so it models Python
comparison of naive datetimes. -/
def WallClock.toKey (w : WallClock) : Nat :=
  ((((((w.year * 13 + w.month) * 32 + w.day) * 24 + w.hour) * 60 + w.minute)
      * 60 + w.second) * 1000000 + w.microsecond)

/-- Models `datetime.replace(tzinfo=None)`: drop the offset, keep the clock fields. -/
def replaceTzinfoNone (d : PyDateTime) : PyDateTime :=
  { d with tzOffsetMinutes := none }

/-- Parse exactly `n` ASCII digits from the front of the character list,
returning the value and the rest. -/
def parseDigitsAux : Nat → Nat → List Char → Option (Nat × List Char)
  | 0, acc, cs => some (acc, cs)
  | n + 1, acc, c :: cs =>
      if c.isDigit then parseDigitsAux n (acc * 10 + (c.toNat - 48)) cs else none
  | _ + 1, _, [] => none

def parseDigits (n : Nat) (cs : List Char) : Option (Nat × List Char) :=
  parseDigitsAux n 0 cs

def expectChar (c : Char) : List Char → Option (List Char)
  | d :: cs => if d = c then some cs else none
  | [] => none

/-- Length of a leading run of ASCII digits. -/
def leadingDigitCount : List Char → Nat
  | c :: cs => if c.isDigit then leadingDigitCount cs + 1 else 0
  | [] => 0

/-- Parse a fractional-seconds suffix of 1 to 6 digits, scaled to microseconds. -/
def parseFraction (cs : List Char) : Option (Nat × List Char) :=
  let k := leadingDigitCount cs
  if 1 ≤ k ∧ k ≤ 6 then
    match parseDigits k cs with
    | some (v, rest) => some (v * 10 ^ (6 - k), rest)
    | none => none
  else none

def isLeapYear (y : Nat) : Bool :=
  (y % 4 = 0 && y % 100 ≠ 0) || y % 400 = 0

def daysInMonth (y m : Nat) : Nat :=
  if m = 2 then (if isLeapYear y then 29 else 28)
  else if m = 4 ∨ m = 6 ∨ m = 9 ∨ m = 11 then 30
  else 31

/-- Parse the optional UTC-offset suffix: nothing, `Z`, or `±HH:MM`;
result is the offset in minutes (or `none` for a naive datetime). -/
def parseTzSuffix : List Char → Option (Option Int)
  | [] => some none
  | 'Z' :: [] => some (some 0)
  | c :: cs =>
      if c = '+' ∨ c = '-' then
        match parseDigits 2 cs with
        | some (oh, rest) =>
            match expectChar ':' rest with
            | some rest2 =>
                match parseDigits 2 rest2 with
                | some (om, []) =>
                    if oh ≤ 23 ∧ om ≤ 59 then
                      let mins : Int := Int.ofNat (oh * 60 + om)
                      some (some (if c = '-' then -mins else mins))
                    else none
                | _ => none
            | none => none
        | none => none
      else none

/-- Parse `[:MM[:SS[.ffffff]]][tz]` after the hour, returning minute, second,
microsecond and offset. -/
def parseMinSecTz (cs : List Char) : Option (Nat × Nat × Nat × Option Int) :=
  match cs with
  | ':' :: cs1 =>
      match parseDigits 2 cs1 with
      | some (mi, rest) =>
          match rest with
          | ':' :: cs2 =>
              match parseDigits 2 cs2 with
              | some (se, rest2) =>
                  match rest2 with
                  | '.' :: cs3 =>
                      match parseFraction cs3 with
                      | some (us, rest3) =>
                          match parseTzSuffix rest3 with
                          | some tz => some (mi, se, us, tz)
                          | none => none
                      | none => none
                  | _ =>
                      match parseTzSuffix rest2 with
                      | some tz => some (mi, se, 0, tz)
                      | none => none
              | none => none
          | _ =>
              match parseTzSuffix rest with
              | some tz => some (mi, 0, 0, tz)
              | none => none
      | none => none
  | _ =>
      match parseTzSuffix cs with
      | some tz => some (0, 0, 0, tz)
      | none => none

/-- Models Python `datetime.fromisoformat` on its common input forms:
`YYYY-MM-DD`, optionally followed by a separator and `HH[:MM[:SS[.f{1-6}]]]`,
optionally followed by `Z` or a `±HH:MM` offset, with calendar range checks. -/
def fromisoformat (s : String) : Option PyDateTime :=
  match parseDigits 4 s.data with
  | some (y, r1) =>
      match expectChar '-' r1 with
      | some r2 =>
          match parseDigits 2 r2 with
          | some (mo, r3) =>
              match expectChar '-' r3 with
              | some r4 =>
                  match parseDigits 2 r4 with
                  | some (d, r5) =>
                      let timePart : Option (Nat × Nat × Nat × Nat × Option Int) :=
                        match r5 with
                        | [] => some (0, 0, 0, 0, none)
                        | sep :: r6 =>
                            if sep = 'T' ∨ sep = ' ' then
                              match parseDigits 2 r6 with
                              | some (h, r7) =>
                                  match parseMinSecTz r7 with
                                  | some (mi, se, us, tz) => some (h, mi, se, us, tz)
                                  | none => none
                              | none => none
                            else none
                      match timePart with
                      | some (h, mi, se, us, tz) =>
                          if 1 ≤ mo ∧ mo ≤ 12 ∧ 1 ≤ d ∧ d ≤ daysInMonth y mo
                              ∧ h ≤ 23 ∧ mi ≤ 59 ∧ se ≤ 59 ∧ us < 1000000 then
                            some ⟨⟨y, mo, d, h, mi, se, us⟩, tz⟩
                          else none
                      | none => none
                  | none => none
              | none => none
          | none => none
      | none => none
  | none => none

/-- Models `TimeseriesAggregationQueryDto.transform_start_date`:
`datetime.fromisoformat(value).replace(tzinfo=None)`. -/
def transform_start_date (value : String) : Option PyDateTime :=
  (fromisoformat value).map replaceTzinfoNone

/-- Models `TimeseriesAggregationQueryDto.transform_end_date`:
`datetime.fromisoformat(value).replace(tzinfo=None)`. -/
def transform_end_date (value : String) : Option PyDateTime :=
  (fromisoformat value).map replaceTzinfoNone

/-- Modelled from the spec: `IntervalType` lives in the missing
`module/device_data/constants.py`; the spec enumerates its members as
{millisecond, hour, day, week, month, year}. -/
inductive IntervalType where
  | millisecond
  | hour
  | day
  | week
  | month
  | year
deriving DecidableEq

/-- Modelled from the spec: `AggregationType` lives in the missing
`module/device_data/constants.py`; the spec describes it as an enumerated
aggregation function (sum, avg, min, max, etc.). Only presence or absence
matters to the validated claims. -/
inductive AggregationType where
  | avg
  | min
  | max
  | sum
  | count
deriving DecidableEq

/-- Modelled from the spec: `Timezone` lives in the missing
`module/device_data/constants.py`; the spec describes it as an optional
display timezone (enum/string) that does not affect stored timestamps. -/
def Timezone : Type := String

instance : DecidableEq Timezone := fun a b => String.decEq a b

/-- Modelled from the spec: `SortDirection` lives in the missing
`database/repository/pagination.py`; the spec describes it as asc | desc. -/
inductive SortDirection where
  | asc
  | desc
deriving DecidableEq

/-- Python regex `\s` on ASCII input: space, tab, newline, carriage return,
vertical tab, form feed. -/
def isPyWs (c : Char) : Bool :=
  c = ' ' || c = '\t' || c = '\n' || c = '\r' || c = '\x0b' || c = '\x0c'

def trimWsLeft (l : List Char) : List Char :=
  l.dropWhile isPyWs

def trimWsRight (l : List Char) : List Char :=
  (l.reverse.dropWhile isPyWs).reverse

/-- Split a character list at every comma, keeping the pieces in order. -/
def splitAtCommas : List Char → List (List Char)
  | [] => [[]]
  | ',' :: cs => [] :: splitAtCommas cs
  | c :: cs =>
      match splitAtCommas cs with
      | piece :: rest => (c :: piece) :: rest
      | [] => [[c]]

/-- Consume the whitespace the regex separator `\s*,\s*` absorbs: every piece
loses the whitespace that touches a comma, i.e. its trailing whitespace unless
it is the last piece and its leading whitespace unless it is the first. -/
def trimInnerPieces : List (List Char) → List (List Char)
  | [] => []
  | [x] => [trimWsLeft x]
  | x :: xs => trimWsLeft (trimWsRight x) :: trimInnerPieces xs

def regexSplitCommaWs (s : String) : List String :=
  match splitAtCommas s.data with
  | [] => []
  | [x] => [⟨x⟩]
  | x :: xs => ⟨trimWsRight x⟩ :: (trimInnerPieces xs).map (fun l => (⟨l⟩ : String))

/-- The fragments of `regexSplitCommaWs` that are non-empty (Python truthiness
of a string is non-emptiness). -/
def nonEmptyFragments (s : String) : List String :=
  (regexSplitCommaWs s).filter (fun f => f ≠ "")

/-- Models `keys_comma_separated_values`: `re.split(r"\s*,\s*", value)`, keep
the truthy items as a set, raise `ValueError` when that set is empty. The
Python set is modelled as a deduplicated list. -/
def keys_comma_separated_values (value : String) : Except String (List String) :=
  let result := (nonEmptyFragments value).dedup
  if result = [] then Except.error "At least one key is required"
  else Except.ok result

/-- Models the regex field constraint on `keys__`,
`pattern=r"^[a-zA-Z0-9_,-]+$"`: non-empty and every character a letter,
digit, underscore, comma or hyphen. -/
def matchesKeysPattern (s : String) : Bool :=
  s.data ≠ [] && s.data.all (fun c => c.isAlpha || c.isDigit || c = '_' || c = ',' || c = '-')

/-- Models the field state of a constructed `TimeseriesAggregationQueryDto`.
`start_date` and `end_date` hold naive datetimes (wall-clock only), as
produced by the before-validators that strip the timezone. -/
structure TimeseriesAggregationQueryDto where
  keys__ : String
  start_date : WallClock
  end_date : WallClock
  interval_type : Option IntervalType
  interval : Int
  agg : Option AggregationType
  limit : Int
  timezone : Option Timezone
  order_by : Option SortDirection
deriving DecidableEq

namespace TimeseriesAggregationQueryDto

/-- Models the computed property `keys`: `keys_comma_separated_values(self.keys__)`. -/
def keys (d : TimeseriesAggregationQueryDto) : Except String (List String) :=
  keys_comma_separated_values d.keys__

/-- Models the computed property `interval_in_timedelta` as a function of the
two fields it reads; the result is a Python `timedelta` in microseconds. -/
def interval_in_timedelta_fn (interval_type : Option IntervalType) (interval : Int) :
    Except String Int :=
  if interval_type = none ∨ interval = 0 then
    Except.error "Interval and interval type must be provided"
  else
    match interval_type with
    | some IntervalType.millisecond => Except.ok (interval * 1000)
    | some IntervalType.hour => Except.ok (interval * 3600 * 1000000)
    | some IntervalType.day => Except.ok (interval * 86400 * 1000000)
    | some IntervalType.week => Except.ok (interval * 7 * 86400 * 1000000)
    | some IntervalType.month => Except.ok ((interval * 30) * 86400 * 1000000)
    | some IntervalType.year => Except.ok ((interval * 365) * 86400 * 1000000)
    | none => Except.error "Invalid interval type"

/-- Models the computed property `interval_in_timedelta` on a dto. -/
def interval_in_timedelta (d : TimeseriesAggregationQueryDto) : Except String Int :=
  interval_in_timedelta_fn d.interval_type d.interval

/-- Models the computed property `is_aggregate_query`:
`self.interval > 0 and self.interval_type is not None and self.agg is not None`. -/
def is_aggregate_query (d : TimeseriesAggregationQueryDto) : Bool :=
  d.interval > 0 && d.interval_type.isSome && d.agg.isSome

/-- Models the after-model-validator `validate_dto`: reject when
`start_date >= end_date`, then reject when
`interval == 0 or interval_type is None or agg is None`, else return self. -/
def validate_dto (d : TimeseriesAggregationQueryDto) : Except String TimeseriesAggregationQueryDto :=
  if d.start_date.toKey ≥ d.end_date.toKey then
    Except.error "End date must be greater than start date"
  else if d.interval = 0 ∨ d.interval_type = none ∨ d.agg = none then
    Except.error "When using aggregation, interval, intervalType, and agg must be provided"
  else
    Except.ok d

end TimeseriesAggregationQueryDto

/-- Models full pydantic construction of `TimeseriesAggregationQueryDto` from
raw inputs: the `keys__` pattern check, the before-validators parsing and
tz-stripping the two dates, the `ge`/`le` bounds on `interval` and `limit`,
then the after-model-validator `validate_dto`. -/
def mkDto (rawKeys rawStart rawEnd : String) (interval_type : Option IntervalType)
    (interval : Int) (agg : Option AggregationType) (limit : Int)
    (timezone : Option Timezone) (order_by : Option SortDirection) :
    Except String TimeseriesAggregationQueryDto :=
  if ¬ matchesKeysPattern rawKeys then
    Except.error "String should match pattern"
  else
    match transform_start_date rawStart, transform_end_date rawEnd with
    | some sd, some ed =>
        if interval < 0 then Except.error "Input should be greater than or equal to 0"
        else if limit < 0 ∨ limit > 500 then Except.error "limit out of range"
        else
          TimeseriesAggregationQueryDto.validate_dto
            ⟨rawKeys, sd.wall, ed.wall, interval_type, interval, agg, limit, timezone, order_by⟩
    | _, _ => Except.error "Input is not a valid datetime"

/-- A row of the `permission` table: id plus the seeded columns. -/
structure Permission where
  id : Nat
  scope : String
  title : String
  description : String
deriving DecidableEq

/-- A row of the `role` table, reduced to the columns the migration reads. -/
structure Role where
  id : Nat
  name : String
deriving DecidableEq

/-- A row of the `role_permission` association table. -/
structure RolePermission where
  role_id : Nat
  permission_id : Nat
deriving DecidableEq

/-- The store state the migration touches: the three tables plus the
autoincrement counter that assigns fresh permission ids on flush. -/
structure DbState where
  roles : List Role
  permissions : List Permission
  role_permissions : List RolePermission
  nextPermissionId : Nat
deriving DecidableEq

/-- Modelled from the spec: the well-known owner role name `TEAM_ROLE_OWNER`
lives in the missing `module/auth/constants.py`. -/
def TEAM_ROLE_OWNER : String := "Owner"

/-- Modelled from the spec: the three seeded team-role permission entries
(scope, title, description) for `TeamRolePermission.READ/MANAGE/DELETE`, whose
definitions live in the missing `module/auth/permission.py`. The exact strings
are placeholders; the claims depend only on the scopes being a fixed list that
matches itself on deletion. -/
def seedPermissionData : List (String × String × String) :=
  [("team:role:read", "Read team role", "Permission to read team roles"),
   ("team:role:manage", "Manage team role", "Permission to manage team roles"),
   ("team:role:delete", "Delete team role", "Permission to delete team roles")]

/-- The seeded scope strings, as used by the downgrade delete filters. -/
def seedScopes : List String :=
  seedPermissionData.map (fun p => p.1)

/-- The `Permission` rows `session.add_all(permissions); session.flush()`
creates, with autoincrement ids assigned from `startId`. -/
def seededPermissions (startId : Nat) : List Permission :=
  seedPermissionData.enum.map (fun p => ⟨startId + p.1, p.2.1, p.2.2.1, p.2.2.2⟩)

/-- Models `role_owner_ids_stmt`: `select(Role.id).where(Role.name == TEAM_ROLE_OWNER)`. -/
def roleOwnerIds (s : DbState) : List Nat :=
  (s.roles.filter (fun r => r.name = TEAM_ROLE_OWNER)).map Role.id

/-- Models `upgrade()`: insert the three seeded permissions (fresh ids), then
insert one association row per (permission, owner-role id) pair, in the
permission-major order of the nested loops. -/
def upgrade (s : DbState) : DbState :=
  let newPerms := seededPermissions s.nextPermissionId
  let ownerIds := roleOwnerIds s
  let values := newPerms.flatMap (fun p => ownerIds.map (fun rid => RolePermission.mk rid p.id))
  { s with
    permissions := s.permissions ++ newPerms,
    role_permissions := s.role_permissions ++ values,
    nextPermissionId := s.nextPermissionId + newPerms.length }

/-- Models `downgrade()`: delete association rows whose role id is an owner
role and whose permission id belongs to a permission carrying a seeded scope,
then delete the permissions carrying a seeded scope. -/
def downgrade (s : DbState) : DbState :=
  let ownerIds := roleOwnerIds s
  let permissionIds :=
    (s.permissions.filter (fun p => seedScopes.contains p.scope)).map Permission.id
  { s with
    role_permissions := s.role_permissions.filter
      (fun rp => !(ownerIds.contains rp.role_id && permissionIds.contains rp.permission_id)),
    permissions := s.permissions.filter (fun p => !(seedScopes.contains p.scope)) }

/-- Concrete store state used to exercise the seed migration: a single role
named `TEAM_ROLE_OWNER`, no permissions, no associations. -/
def seedDemoState : DbState :=
  ⟨[⟨1, TEAM_ROLE_OWNER⟩], [], [], 1⟩

/-- C1: a structurally valid telemetry query that does not request aggregation
(interval = 0, intervalType absent, agg absent, valid keys, startDate strictly
before endDate) is nevertheless rejected by construction: `validate_dto`
unconditionally demands all three aggregation fields, contradicting the
claim (and the dto's own field documentation) that the completeness check
fires only for intended aggregate queries. -/
theorem nonAggregate_request_rejected :
    mkDto "temp" "2021-01-01T00:00:00" "2022-01-01T00:00:00" none 0 none 100 none none
      = Except.error "When using aggregation, interval, intervalType, and agg must be provided" := by
  decide

/-- C4 counterexample: a request whose `keys` parameter is the exact string
"temp, humidity,,temp" is NOT accepted, whatever the other (valid) fields:
the embedded space fails the field pattern `^[a-zA-Z0-9_,-]+$`, so
construction stops before the key-set parser runs. -/
theorem spaced_keys_request_rejected :
    matchesKeysPattern "temp, humidity,,temp" = false ∧
    mkDto "temp, humidity,,temp" "2021-01-01T00:00:00" "2022-01-01T00:00:00"
        (some IntervalType.hour) 1 (some AggregationType.avg) 100 none none
      = Except.error "String should match pattern" := by
  decide

/-- C4 amended: the raw key-set parser applied to "temp, humidity,,temp" does
yield exactly the set {"temp", "humidity"} (space tolerated, empty fragment
dropped, duplicate removed), but at the request level the embedded space is
rejected by the `keys` field pattern; the space-free request
"temp,humidity,,temp" is accepted with exactly that parsed key set. -/
theorem spaced_keys_amended :
    (∃ l, keys_comma_separated_values "temp, humidity,,temp" = Except.ok l ∧
       l.toFinset = {"temp", "humidity"}) ∧
    (∃ d, mkDto "temp,humidity,,temp" "2021-01-01T00:00:00" "2022-01-01T00:00:00"
        (some IntervalType.hour) 1 (some AggregationType.avg) 100 none none = Except.ok d ∧
       ∃ l, d.keys = Except.ok l ∧ l.toFinset = {"temp", "humidity"}) := by
  refine ⟨⟨["humidity", "temp"], by decide, by decide⟩,
    ⟨⟨"temp,humidity,,temp", ⟨2021, 1, 1, 0, 0, 0, 0⟩, ⟨2022, 1, 1, 0, 0, 0, 0⟩,
       some IntervalType.hour, 1, some AggregationType.avg, 100, none, none⟩,
     by decide, ⟨["humidity", "temp"], by decide, by decide⟩⟩⟩

/-- C7: `is_aggregate_query` holds exactly when all three of interval > 0,
intervalType present and agg present hold simultaneously, for every request
object. -/
theorem is_aggregate_query_iff (d : TimeseriesAggregationQueryDto) :
    d.is_aggregate_query = true ↔
      (0 < d.interval ∧ d.interval_type ≠ none ∧ d.agg ≠ none) := by
  simp [TimeseriesAggregationQueryDto.is_aggregate_query, Option.isSome_iff_ne_none, and_assoc]

/-- C9: the seed forward procedure is not idempotent: on a store with one
owner-named role and empty permission tables, running `upgrade` twice differs
from running it once, doubling the association rows and linking the owner role
twice to two distinct permission rows that carry the same scope. -/
theorem seed_upgrade_not_idempotent :
    (Role.mk 1 TEAM_ROLE_OWNER) ∈ seedDemoState.roles ∧
    upgrade (upgrade seedDemoState) ≠ upgrade seedDemoState ∧
    (upgrade (upgrade seedDemoState)).role_permissions.length
      = 2 * (upgrade seedDemoState).role_permissions.length ∧
    (∃ p q : Permission, p ∈ (upgrade (upgrade seedDemoState)).permissions ∧
       q ∈ (upgrade (upgrade seedDemoState)).permissions ∧ p.id ≠ q.id ∧ p.scope = q.scope ∧
       RolePermission.mk 1 p.id ∈ (upgrade (upgrade seedDemoState)).role_permissions ∧
       RolePermission.mk 1 q.id ∈ (upgrade (upgrade seedDemoState)).role_permissions) := by
  refine ⟨by decide, by decide, by decide,
    ⟨⟨1, "team:role:read", "Read team role", "Permission to read team roles"⟩,
     ⟨4, "team:role:read", "Read team role", "Permission to read team roles"⟩,
     by decide, by decide, by decide, by decide, by decide, by decide⟩⟩

/-- C2: for a request whose aggregation fields satisfy the (unconditional)
completeness check, `validate_dto` accepts exactly when startDate is strictly
before endDate; and whatever the other fields, startDate >= endDate (including
equality) is always rejected with the end-before-start error. -/
theorem date_ordering_validation (d : TimeseriesAggregationQueryDto)
    (hcomplete : d.interval ≠ 0 ∧ d.interval_type ≠ none ∧ d.agg ≠ none) :
    (d.validate_dto = Except.ok d ↔ d.start_date.toKey < d.end_date.toKey) ∧
    (d.end_date.toKey ≤ d.start_date.toKey →
       d.validate_dto = Except.error "End date must be greater than start date") := by
  unfold TimeseriesAggregationQueryDto.validate_dto
  rcases hcomplete with ⟨h1, h2, h3⟩
  by_cases hd : d.start_date.toKey ≥ d.end_date.toKey
  · constructor
    · simp only [if_pos hd]
      constructor
      · intro h; exact absurd h (by simp)
      · intro h; exact absurd h (Nat.not_lt.mpr hd)
    · intro _; simp [if_pos hd]
  · constructor
    · simp only [if_neg hd]
      have hcond : ¬(d.interval = 0 ∨ d.interval_type = none ∨ d.agg = none) := by
        simp [h1, h2, h3]
      simp only [if_neg hcond]
      constructor
      · intro _; exact Nat.lt_of_not_le hd
      · intro _; trivial
    · intro h; exact absurd h hd

/-- C2 witness: with complete aggregation fields, a window of one microsecond
is accepted, and the same request with equal start and end dates is rejected. -/
theorem date_ordering_validation_witness :
    ((⟨"temp", ⟨2021, 1, 1, 0, 0, 0, 0⟩, ⟨2021, 1, 1, 0, 0, 0, 1⟩, some IntervalType.hour, 1,
        some AggregationType.avg, 100, none, none⟩ : TimeseriesAggregationQueryDto).validate_dto
      = Except.ok ⟨"temp", ⟨2021, 1, 1, 0, 0, 0, 0⟩, ⟨2021, 1, 1, 0, 0, 0, 1⟩,
          some IntervalType.hour, 1, some AggregationType.avg, 100, none, none⟩) ∧
    ((⟨"temp", ⟨2021, 1, 1, 0, 0, 0, 0⟩, ⟨2021, 1, 1, 0, 0, 0, 0⟩, some IntervalType.hour, 1,
        some AggregationType.avg, 100, none, none⟩ : TimeseriesAggregationQueryDto).validate_dto
      = Except.error "End date must be greater than start date") :=
  ⟨((date_ordering_validation _ ⟨by decide, by decide, by decide⟩).1).mpr (by decide),
   (date_ordering_validation _ ⟨by decide, by decide, by decide⟩).2 (by decide)⟩

/-- C3: the key-set parser fails exactly when no non-empty fragment remains
after splitting on whitespace-padded commas, and on success returns a
duplicate-free list whose members are exactly the non-empty fragments. -/
theorem keys_parsing_characterized (s : String) :
    (keys_comma_separated_values s = Except.error "At least one key is required" ↔
       nonEmptyFragments s = []) ∧
    (∀ l, keys_comma_separated_values s = Except.ok l →
       l.Nodup ∧ ∀ k, k ∈ l ↔ (k ∈ regexSplitCommaWs s ∧ k ≠ "")) := by
  unfold keys_comma_separated_values
  by_cases h : (nonEmptyFragments s).dedup = []
  · simp only [if_pos h]
    constructor
    · simp [(List.dedup_eq_nil _).mp h]
    · intro l hl; exact absurd hl (by simp)
  · simp only [if_neg h]
    constructor
    · constructor
      · intro hh; exact absurd hh (by simp)
      · intro hh; exact absurd ((List.dedup_eq_nil _).mpr hh) h
    · intro l hl
      have hld : l = (nonEmptyFragments s).dedup := (Except.ok.inj hl).symm
      subst hld
      refine ⟨List.nodup_dedup _, fun k => ?_⟩
      rw [List.mem_dedup]
      unfold nonEmptyFragments
      simp [List.mem_filter]

/-- C3 witness: on "a, b,,a" the parser succeeds, and the returned list is
duplicate-free with members exactly the non-empty fragments. -/
theorem keys_parsing_characterized_witness :
    (["b", "a"] : List String).Nodup ∧
    ∀ k, k ∈ (["b", "a"] : List String) ↔ (k ∈ regexSplitCommaWs "a, b,,a" ∧ k ≠ "") :=
  (keys_parsing_characterized "a, b,,a").2 ["b", "a"] (by decide)

/-- C5: for every string the embedded `fromisoformat` parses, both date
before-validators strip the timezone offset without converting, returning the
unchanged wall-clock fields with no tzinfo; the same rule applies to startDate
and endDate. -/
theorem date_normalization_strips_tz (s : String) (d : PyDateTime)
    (h : fromisoformat s = some d) :
    transform_start_date s = some ⟨d.wall, none⟩ ∧
    transform_end_date s = some ⟨d.wall, none⟩ := by
  constructor <;>
    simp [transform_start_date, transform_end_date, h, replaceTzinfoNone]

/-- C5 witness: "2021-01-01T00:00:00+05:00" parses with a +05:00 offset and
normalizes to the naive wall clock 2021-01-01T00:00:00, offset discarded, not
converted, for both validators. -/
theorem date_normalization_strips_tz_witness :
    fromisoformat "2021-01-01T00:00:00+05:00"
      = some ⟨⟨2021, 1, 1, 0, 0, 0, 0⟩, some 300⟩ ∧
    transform_start_date "2021-01-01T00:00:00+05:00"
      = some ⟨⟨2021, 1, 1, 0, 0, 0, 0⟩, none⟩ ∧
    transform_end_date "2021-01-01T00:00:00+05:00"
      = some ⟨⟨2021, 1, 1, 0, 0, 0, 0⟩, none⟩ :=
  ⟨by decide,
   (date_normalization_strips_tz _ ⟨⟨2021, 1, 1, 0, 0, 0, 0⟩, some 300⟩ (by decide)).1,
   (date_normalization_strips_tz _ ⟨⟨2021, 1, 1, 0, 0, 0, 0⟩, some 300⟩ (by decide)).2⟩

/-- The interval-resolution table as the spec states it: millisecond, hour,
day and week scale the interval by the unit, month is interval times 30 days
and year interval times 365 days; expressed in timedelta microseconds. -/
def specIntervalDuration (t : IntervalType) (interval : Int) : Int :=
  match t with
  | IntervalType.millisecond => interval * 1000
  | IntervalType.hour => interval * 3600 * 1000000
  | IntervalType.day => interval * 86400 * 1000000
  | IntervalType.week => interval * 7 * 86400 * 1000000
  | IntervalType.month => interval * 30 * 86400 * 1000000
  | IntervalType.year => interval * 365 * 86400 * 1000000

/-- C6: for every positive interval and present intervalType,
`interval_in_timedelta` follows the fixed duration table, and it fails when
intervalType is absent or the interval is zero. -/
theorem interval_resolution_table (t : IntervalType) (i : Int) (hi : 0 < i) :
    TimeseriesAggregationQueryDto.interval_in_timedelta_fn (some t) i
      = Except.ok (specIntervalDuration t i) ∧
    TimeseriesAggregationQueryDto.interval_in_timedelta_fn none i
      = Except.error "Interval and interval type must be provided" ∧
    TimeseriesAggregationQueryDto.interval_in_timedelta_fn (some t) 0
      = Except.error "Interval and interval type must be provided" := by
  refine ⟨?_, by simp [TimeseriesAggregationQueryDto.interval_in_timedelta_fn],
    by simp [TimeseriesAggregationQueryDto.interval_in_timedelta_fn]⟩
  have hne : ¬((some t : Option IntervalType) = none ∨ i = 0) := by
    simp [Int.ne_of_gt hi]
  unfold TimeseriesAggregationQueryDto.interval_in_timedelta_fn
  rw [if_neg hne]
  cases t <;> simp [specIntervalDuration]

/-- C6 witness: two weeks resolve to exactly 14 days and one month to exactly
30 days of microseconds. -/
theorem interval_resolution_table_witness :
    TimeseriesAggregationQueryDto.interval_in_timedelta_fn (some IntervalType.week) 2
      = Except.ok (14 * 86400 * 1000000) ∧
    TimeseriesAggregationQueryDto.interval_in_timedelta_fn (some IntervalType.month) 1
      = Except.ok (30 * 86400 * 1000000) ∧
    TimeseriesAggregationQueryDto.interval_in_timedelta_fn none 2
      = Except.error "Interval and interval type must be provided" ∧
    TimeseriesAggregationQueryDto.interval_in_timedelta_fn (some IntervalType.week) 0
      = Except.error "Interval and interval type must be provided" :=
  ⟨((interval_resolution_table IntervalType.week 2 (by decide)).1).trans (by decide),
   ((interval_resolution_table IntervalType.month 1 (by decide)).1).trans (by decide),
   (interval_resolution_table IntervalType.week 2 (by decide)).2.1,
   (interval_resolution_table IntervalType.week 2 (by decide)).2.2⟩

/-- C10: every successfully constructed request satisfies interval > 0,
intervalType present and agg present, hence `is_aggregate_query` is true and
`interval_in_timedelta` succeeds (its error branch is unreachable on any
validated request). -/
theorem constructed_dto_is_aggregate (rawKeys rawStart rawEnd : String)
    (it : Option IntervalType) (i : Int) (ag : Option AggregationType) (lim : Int)
    (tz : Option Timezone) (ob : Option SortDirection) (r : TimeseriesAggregationQueryDto)
    (h : mkDto rawKeys rawStart rawEnd it i ag lim tz ob = Except.ok r) :
    0 < r.interval ∧ r.interval_type ≠ none ∧ r.agg ≠ none ∧
      r.is_aggregate_query = true ∧
      ∃ td, r.interval_in_timedelta = Except.ok td := by
  unfold mkDto at h
  split at h
  · exact absurd h (by simp)
  · split at h
    · rename_i sd ed hsd hed
      split at h
      · exact absurd h (by simp)
      · split at h
        · exact absurd h (by simp)
        · rename_i hipos hlim
          unfold TimeseriesAggregationQueryDto.validate_dto at h
          split at h
          · exact absurd h (by simp)
          · split at h
            · exact absurd h (by simp)
            · rename_i hdate hcond
              have hr : r = ⟨rawKeys, sd.wall, ed.wall, it, i, ag, lim, tz, ob⟩ :=
                (Except.ok.inj h).symm
              subst hr
              dsimp only at hcond
              push_neg at hcond
              obtain ⟨hi0, hit, hag⟩ := hcond
              have hipos2 : (0 : Int) < i := by omega
              refine ⟨hipos2, hit, hag, ?_, ?_⟩
              · simp [TimeseriesAggregationQueryDto.is_aggregate_query,
                  Option.isSome_iff_ne_none, hipos2, hit, hag]
              · unfold TimeseriesAggregationQueryDto.interval_in_timedelta
                unfold TimeseriesAggregationQueryDto.interval_in_timedelta_fn
                dsimp only
                rw [if_neg (by simp [hi0, hit])]
                cases it with
                | none => exact absurd rfl hit
                | some t => cases t <;> exact ⟨_, rfl⟩
    · exact absurd h (by simp)

/-- C10 witness: a concrete accepted construction, whose result has a positive
interval, present intervalType and agg, a true `is_aggregate_query`, and a
succeeding `interval_in_timedelta`. -/
theorem constructed_dto_is_aggregate_witness :
    0 < (⟨"temp", ⟨2021, 1, 1, 0, 0, 0, 0⟩, ⟨2022, 1, 1, 0, 0, 0, 0⟩, some IntervalType.hour, 1,
        some AggregationType.avg, 100, none, none⟩ : TimeseriesAggregationQueryDto).interval ∧
    (⟨"temp", ⟨2021, 1, 1, 0, 0, 0, 0⟩, ⟨2022, 1, 1, 0, 0, 0, 0⟩, some IntervalType.hour, 1,
        some AggregationType.avg, 100, none, none⟩ :
          TimeseriesAggregationQueryDto).interval_type ≠ none ∧
    (⟨"temp", ⟨2021, 1, 1, 0, 0, 0, 0⟩, ⟨2022, 1, 1, 0, 0, 0, 0⟩, some IntervalType.hour, 1,
        some AggregationType.avg, 100, none, none⟩ : TimeseriesAggregationQueryDto).agg ≠ none ∧
    (⟨"temp", ⟨2021, 1, 1, 0, 0, 0, 0⟩, ⟨2022, 1, 1, 0, 0, 0, 0⟩, some IntervalType.hour, 1,
        some AggregationType.avg, 100, none, none⟩ :
          TimeseriesAggregationQueryDto).is_aggregate_query = true ∧
    ∃ td, (⟨"temp", ⟨2021, 1, 1, 0, 0, 0, 0⟩, ⟨2022, 1, 1, 0, 0, 0, 0⟩, some IntervalType.hour, 1,
        some AggregationType.avg, 100, none,
        none⟩ : TimeseriesAggregationQueryDto).interval_in_timedelta = Except.ok td :=
  constructed_dto_is_aggregate "temp" "2021-01-01T00:00:00" "2022-01-01T00:00:00"
    (some IntervalType.hour) 1 (some AggregationType.avg) 100 none none _ (by decide)

lemma contains_eq_false_of_not_mem {α : Type} [BEq α] [LawfulBEq α] {l : List α} {x : α}
    (h : x ∉ l) : l.contains x = false :=
  Bool.eq_false_iff.mpr (fun hc => h (List.elem_iff.mp hc))

lemma contains_eq_true_of_mem {α : Type} [BEq α] [LawfulBEq α] {l : List α} {x : α}
    (h : x ∈ l) : l.contains x = true :=
  List.elem_iff.mpr h

lemma seededPermissions_eq (n : Nat) :
    seededPermissions n =
      [⟨n, "team:role:read", "Read team role", "Permission to read team roles"⟩,
       ⟨n + 1, "team:role:manage", "Manage team role", "Permission to manage team roles"⟩,
       ⟨n + 2, "team:role:delete", "Delete team role", "Permission to delete team roles"⟩] := by
  simp [seededPermissions, seedPermissionData, List.enum]

lemma old_permissions_filter_seeded {s : DbState}
    (hscope : ∀ p ∈ s.permissions, p.scope ∉ seedScopes) :
    s.permissions.filter (fun p => seedScopes.contains p.scope) = [] :=
  List.filter_eq_nil_iff.mpr (fun p hp => by
    simpa using hscope p hp)

lemma seeded_filter_seeded (n : Nat) :
    (seededPermissions n).filter (fun p => seedScopes.contains p.scope)
      = seededPermissions n := by
  refine List.filter_eq_self.mpr (fun p hp => ?_)
  rw [seededPermissions_eq] at hp
  simp only [List.mem_cons, List.not_mem_nil, or_false] at hp
  rcases hp with h | h | h <;> subst h <;> rfl

/-- A store state with a pre-existing permission and association, whose scope
is not among the seeded ones, used to instantiate the round-trip theorem. -/
def seedPopulatedState : DbState :=
  ⟨[⟨1, TEAM_ROLE_OWNER⟩, ⟨2, "Member"⟩], [⟨0, "existing:scope", "Existing", "Pre-seed row"⟩],
   [⟨1, 0⟩, ⟨2, 0⟩], 1⟩

/-- C8: running the seed rollback immediately after the seed forward, from any
state where the seeded permission scopes are not yet present and every
association row references an already-assigned permission id, restores the
permission and role-permission tables to exactly their pre-seed contents. -/
theorem seed_forward_rollback_roundtrip (s : DbState)
    (hscope : ∀ p ∈ s.permissions, p.scope ∉ seedScopes)
    (hpid : ∀ rp ∈ s.role_permissions, rp.permission_id < s.nextPermissionId) :
    (downgrade (upgrade s)).permissions = s.permissions ∧
    (downgrade (upgrade s)).role_permissions = s.role_permissions := by
  have h1 : s.permissions.filter (fun p => !seedScopes.contains p.scope) = s.permissions :=
    List.filter_eq_self.mpr (fun p hp => by simpa using hscope p hp)
  have h2 : (seededPermissions s.nextPermissionId).filter
      (fun p => !seedScopes.contains p.scope) = [] := by
    rw [seededPermissions_eq]; rfl
  have hpids : List.map Permission.id
      (List.filter (fun p => seedScopes.contains p.scope)
        (s.permissions ++ seededPermissions s.nextPermissionId))
      = [s.nextPermissionId, s.nextPermissionId + 1, s.nextPermissionId + 2] := by
    rw [List.filter_append, old_permissions_filter_seeded hscope, seeded_filter_seeded,
      List.nil_append, seededPermissions_eq]
    rfl
  refine ⟨?_, ?_⟩ <;> simp only [downgrade, upgrade, roleOwnerIds]
  · rw [List.filter_append, h1, h2, List.append_nil]
  · simp only [hpids]
    simp only [seededPermissions_eq, List.flatMap_cons, List.flatMap_nil,
      List.append_nil, List.filter_append]
    set O := List.map Role.id (List.filter (fun r => decide (r.name = TEAM_ROLE_OWNER)) s.roles)
      with hO
    set K := fun rp : RolePermission =>
      !(O.contains rp.role_id && ([s.nextPermissionId, s.nextPermissionId + 1,
          s.nextPermissionId + 2].contains rp.permission_id)) with hK
    have hold : List.filter K s.role_permissions = s.role_permissions := by
      refine List.filter_eq_self.mpr (fun rp hrp => ?_)
      have hlt := hpid rp hrp
      have hnc : ([s.nextPermissionId, s.nextPermissionId + 1,
          s.nextPermissionId + 2].contains rp.permission_id) = false :=
        contains_eq_false_of_not_mem (by
          simp only [List.mem_cons, List.not_mem_nil, or_false]
          push_neg
          refine ⟨by omega, by omega, by omega⟩)
      rw [hK]
      simp
      exact Or.inr ⟨by omega, by omega, by omega⟩
    have hnew : ∀ m : Nat,
        ([s.nextPermissionId, s.nextPermissionId + 1,
            s.nextPermissionId + 2].contains m) = true →
        List.filter K (List.map (fun rid => RolePermission.mk rid m) O) = [] := by
      intro m hm
      refine List.filter_eq_nil_iff.mpr (fun rp hrp => ?_)
      simp only [List.mem_map] at hrp
      obtain ⟨rid, hrid, hrpeq⟩ := hrp
      subst hrpeq
      rw [hK]
      have hmm : m = s.nextPermissionId ∨ m = s.nextPermissionId + 1
          ∨ m = s.nextPermissionId + 2 := by
        have hmem := List.elem_iff.mp hm
        simpa using hmem
      simp
      exact ⟨hrid, by tauto⟩
    rw [hold, hnew s.nextPermissionId (contains_eq_true_of_mem (by simp)),
      hnew (s.nextPermissionId + 1) (contains_eq_true_of_mem (by simp)),
      hnew (s.nextPermissionId + 2) (contains_eq_true_of_mem (by simp))]
    simp

/-- C8 witness: on a concrete populated store the hypotheses hold and the
upgrade-then-downgrade round trip restores both tables exactly. -/
theorem seed_forward_rollback_roundtrip_witness :
    (∀ p ∈ seedPopulatedState.permissions, p.scope ∉ seedScopes) ∧
    (∀ rp ∈ seedPopulatedState.role_permissions,
       rp.permission_id < seedPopulatedState.nextPermissionId) ∧
    (downgrade (upgrade seedPopulatedState)).permissions = seedPopulatedState.permissions ∧
    (downgrade (upgrade seedPopulatedState)).role_permissions
      = seedPopulatedState.role_permissions :=
  ⟨by decide, by decide,
   (seed_forward_rollback_roundtrip seedPopulatedState (by decide) (by decide)).1,
   (seed_forward_rollback_roundtrip seedPopulatedState (by decide) (by decide)).2⟩
